import Mathlib

/-!
Shallow embedding of the ecs-fargate-cdk repository: the environment
configuration table (lib/config/environment-config.ts), the application
entry point (bin/ecs-service-app.ts), the container environment-variable
merging and auto-scaling configuration of the stack classes
(EcsServiceStack, EcsServiceCfnStack, SimpleEcsServiceStack), and the
argument handling of scripts/deploy.sh.
-/

/-- Embeds interface RegionConfig of lib/config/environment-config.ts. -/
structure RegionConfig where
  region : String
  vpcId : String
  subnetIds : List String
  securityGroupIds : List String
  certificateArn : String
  hostedZoneId : String
deriving DecidableEq, Repr

/-- Embeds interface EnvironmentConfig of lib/config/environment-config.ts.
JS objects keep string keys in insertion order, so the two mappings are
association lists. -/
structure EnvironmentConfig where
  appName : String
  environment : String
  regions : List (String × RegionConfig)
  iamRoleArn : String
  domainName : String
  containerImage : String
  containerPort : Nat
  healthCheckPath : String
  minCapacity : Nat
  maxCapacity : Nat
  desiredCount : Nat
  cpu : Nat
  memory : Nat
  containerEnvironmentVariables : List (String × String)
deriving DecidableEq, Repr

/-- Region entry environments.local.regions[us-east-1]. -/
def localUsEast1 : RegionConfig :=
  { region := "us-east-1"
  , vpcId := "vpc-12345678"
  , subnetIds := ["subnet-12345678", "subnet-87654321"]
  , securityGroupIds := ["sg-ae374e9b657d70aa0"]
  , certificateArn := "arn:aws:acm:us-east-1:000000000000:certificate/d332aa69-965b-4973-b83d-67fec57413a7"
  , hostedZoneId := "0SQTVEPGW0AFBRL" }

/-- Region entry environments.dev.regions[us-east-1]. -/
def devUsEast1 : RegionConfig :=
  { region := "us-east-1"
  , vpcId := "vpc-dev-us-east-1-xxxxxxxxx"
  , subnetIds := ["subnet-dev-us-east-1-xxxxxxxxx", "subnet-dev-us-east-1-yyyyyyyyy"]
  , securityGroupIds := ["sg-dev-us-east-1-xxxxxxxxx"]
  , certificateArn := "arn:aws:acm:us-east-1:123456789012:certificate/dev-xxxxxxxxx"
  , hostedZoneId := "Z1234567890123" }

/-- Region entry environments.qa.regions[us-east-1]. -/
def qaUsEast1 : RegionConfig :=
  { region := "us-east-1"
  , vpcId := "vpc-qa-us-east-1-xxxxxxxxx"
  , subnetIds := ["subnet-qa-us-east-1-xxxxxxxxx", "subnet-qa-us-east-1-yyyyyyyyy"]
  , securityGroupIds := ["sg-qa-us-east-1-xxxxxxxxx"]
  , certificateArn := "arn:aws:acm:us-east-1:123456789012:certificate/qa-xxxxxxxxx"
  , hostedZoneId := "Z1234567890123" }

/-- Region entry environments.qa.regions[us-west-2]. -/
def qaUsWest2 : RegionConfig :=
  { region := "us-west-2"
  , vpcId := "vpc-qa-us-west-2-xxxxxxxxx"
  , subnetIds := ["subnet-qa-us-west-2-xxxxxxxxx", "subnet-qa-us-west-2-yyyyyyyyy"]
  , securityGroupIds := ["sg-qa-us-west-2-xxxxxxxxx"]
  , certificateArn := "arn:aws:acm:us-west-2:123456789012:certificate/qa-xxxxxxxxx"
  , hostedZoneId := "Z1234567890123" }

/-- Region entry environments.prod.regions[us-east-1]. -/
def prodUsEast1 : RegionConfig :=
  { region := "us-east-1"
  , vpcId := "vpc-prod-us-east-1-xxxxxxxxx"
  , subnetIds := ["subnet-prod-us-east-1-xxxxxxxxx", "subnet-prod-us-east-1-yyyyyyyyy"]
  , securityGroupIds := ["sg-prod-us-east-1-xxxxxxxxx"]
  , certificateArn := "arn:aws:acm:us-east-1:123456789012:certificate/prod-xxxxxxxxx"
  , hostedZoneId := "Z1234567890123" }

/-- Region entry environments.prod.regions[us-west-2]. -/
def prodUsWest2 : RegionConfig :=
  { region := "us-west-2"
  , vpcId := "vpc-prod-us-west-2-xxxxxxxxx"
  , subnetIds := ["subnet-prod-us-west-2-xxxxxxxxx", "subnet-prod-us-west-2-yyyyyyyyy"]
  , securityGroupIds := ["sg-prod-us-west-2-xxxxxxxxx"]
  , certificateArn := "arn:aws:acm:us-west-2:123456789012:certificate/prod-xxxxxxxxx"
  , hostedZoneId := "Z1234567890123" }

/-- Entry environments.local of lib/config/environment-config.ts. -/
def localConfig : EnvironmentConfig :=
  { appName := "mcp-gw"
  , environment := "local"
  , regions := [("us-east-1", localUsEast1)]
  , iamRoleArn := "arn:aws:iam::000000000000:role/ecs-task-role"
  , domainName := "local.mcp-gw.com"
  , containerImage := "mcp-gw-sample-app:latest"
  , containerPort := 8000
  , healthCheckPath := "/ready/status"
  , minCapacity := 1
  , maxCapacity := 2
  , desiredCount := 1
  , cpu := 256
  , memory := 512
  , containerEnvironmentVariables :=
      [ ("NODE_ENV", "development")
      , ("LOG_LEVEL", "debug")
      , ("API_VERSION", "v1")
      , ("DATABASE_POOL_SIZE", "2")
      , ("CACHE_TTL", "60") ] }

/-- Entry environments.dev of lib/config/environment-config.ts. -/
def devConfig : EnvironmentConfig :=
  { appName := "mcp-gw"
  , environment := "dev"
  , regions := [("us-east-1", devUsEast1)]
  , iamRoleArn := "arn:aws:iam::123456789012:role/dev-ecs-task-role"
  , domainName := "dev.yourdomain.com"
  , containerImage := "your-ecr-repo:dev-latest"
  , containerPort := 8000
  , healthCheckPath := "/ready/status"
  , minCapacity := 1
  , maxCapacity := 5
  , desiredCount := 2
  , cpu := 256
  , memory := 512
  , containerEnvironmentVariables :=
      [ ("NODE_ENV", "development")
      , ("LOG_LEVEL", "debug")
      , ("API_VERSION", "v1")
      , ("DATABASE_POOL_SIZE", "5")
      , ("CACHE_TTL", "300") ] }

/-- Entry environments.qa of lib/config/environment-config.ts. -/
def qaConfig : EnvironmentConfig :=
  { appName := "mcp-gw"
  , environment := "qa"
  , regions := [("us-east-1", qaUsEast1), ("us-west-2", qaUsWest2)]
  , iamRoleArn := "arn:aws:iam::123456789012:role/qa-ecs-task-role"
  , domainName := "qa.yourdomain.com"
  , containerImage := "your-ecr-repo:qa-latest"
  , containerPort := 8000
  , healthCheckPath := "/ready/status"
  , minCapacity := 2
  , maxCapacity := 10
  , desiredCount := 3
  , cpu := 512
  , memory := 1024
  , containerEnvironmentVariables :=
      [ ("NODE_ENV", "staging")
      , ("LOG_LEVEL", "info")
      , ("API_VERSION", "v1")
      , ("DATABASE_POOL_SIZE", "10")
      , ("CACHE_TTL", "600")
      , ("ENABLE_METRICS", "true") ] }

/-- Entry environments.prod of lib/config/environment-config.ts. -/
def prodConfig : EnvironmentConfig :=
  { appName := "mcp-gw"
  , environment := "prod"
  , regions := [("us-east-1", prodUsEast1), ("us-west-2", prodUsWest2)]
  , iamRoleArn := "arn:aws:iam::123456789012:role/prod-ecs-task-role"
  , domainName := "prod.yourdomain.com"
  , containerImage := "your-ecr-repo:prod-latest"
  , containerPort := 8000
  , healthCheckPath := "/ready/status"
  , minCapacity := 5
  , maxCapacity := 20
  , desiredCount := 10
  , cpu := 1024
  , memory := 2048
  , containerEnvironmentVariables :=
      [ ("NODE_ENV", "production")
      , ("LOG_LEVEL", "warn")
      , ("API_VERSION", "v1")
      , ("DATABASE_POOL_SIZE", "20")
      , ("CACHE_TTL", "900")
      , ("ENABLE_METRICS", "true")
      , ("PERFORMANCE_MONITORING", "true") ] }

/-- Embeds the exported table `environments` of
lib/config/environment-config.ts, keys in insertion order. -/
def environments : List (String × EnvironmentConfig) :=
  [("local", localConfig), ("dev", devConfig), ("qa", qaConfig), ("prod", prodConfig)]

/-- Embeds the JS property access environments[environmentName]. -/
def envLookup (name : String) : Option EnvironmentConfig :=
  (environments.find? (fun p => p.1 = name)).map Prod.snd

/-- Assigns key k to value v in a JS-style string-keyed object: an
existing key keeps its position and gets the new value, a fresh key is
appended at the end. -/
def objInsert (m : List (String × String)) (k v : String) : List (String × String) :=
  if m.any (fun p => p.1 = k) then
    m.map (fun p => if p.1 = k then (k, v) else p)
  else
    m ++ [(k, v)]

/-- JS object spread: all entries of n assigned into m in order, so a key
occurring in both ends bound to the value from n. -/
def objSpread (m n : List (String × String)) : List (String × String) :=
  n.foldl (fun acc p => objInsert acc p.1 p.2) m

/-- Reads the value bound to key k in a string-keyed object. -/
def lookupVal (m : List (String × String)) (k : String) : Option String :=
  (m.find? (fun p => p.1 = k)).map Prod.snd

/-- Embeds the container environment object literal of EcsServiceStack
(and identically of SimpleEcsServiceStack): first the two system keys
ENVIRONMENT and REGION, then the spread of
environmentConfig.containerEnvironmentVariables. -/
def mergedContainerEnvironment (env : EnvironmentConfig) (rc : RegionConfig) :
    List (String × String) :=
  objSpread [("ENVIRONMENT", env.environment), ("REGION", rc.region)]
    env.containerEnvironmentVariables

/-- Embeds the containerDefinitions[0].environment list of
EcsServiceCfnStack: the two system name/value pairs followed by one pair
per Object.entries of the custom mapping. -/
def cfnContainerEnvironment (env : EnvironmentConfig) (rc : RegionConfig) :
    List (String × String) :=
  [("ENVIRONMENT", env.environment), ("REGION", rc.region)] ++
    env.containerEnvironmentVariables

/-- Splits a character list at each colon. -/
def splitColon : List Char → List Char → List (List Char)
  | [], acc => [acc.reverse]
  | c :: cs, acc =>
      if c = ':' then acc.reverse :: splitColon cs [] else splitColon cs (c :: acc)

/-- Colon-separated components of an ARN string. -/
def arnComponents (s : String) : List String :=
  (splitColon s.data []).map (fun l => String.mk l)

/-- Region component of an ARN: the fourth colon-separated component
(arn:partition:service:region:account:resource). -/
def arnRegion (s : String) : String :=
  (arnComponents s).getD 3 ""

/-- One target-tracking scaling policy as configured by the stacks. -/
structure ScalingPolicy where
  metricType : String
  targetValue : Nat
  scaleInCooldownSeconds : Nat
  scaleOutCooldownSeconds : Nat
deriving DecidableEq, Repr

/-- Scaling-relevant slice of a stack: the scalable-target capacity
bounds and the list of target-tracking policies attached to it. -/
structure ScalingModel where
  minCapacity : Nat
  maxCapacity : Nat
  policies : List ScalingPolicy
deriving DecidableEq, Repr

/-- Observable slice of one constructed CDK stack: identity, selected
flavor, target region, merged container environment, service sizing and
auto-scaling configuration. -/
structure StackModel where
  stackId : String
  flavor : String
  region : String
  containerEnvironment : List (String × String)
  desiredCount : Nat
  scaling : ScalingModel
deriving DecidableEq, Repr

/-- Scaling configuration of EcsServiceStack: autoScaleTaskCount with the
environment bounds, then scaleOnCpuUtilization (target 70, cooldowns 300 s)
and scaleOnMemoryUtilization (target 80, cooldowns 300 s). -/
def ecsServiceStackScaling (env : EnvironmentConfig) : ScalingModel :=
  { minCapacity := env.minCapacity
  , maxCapacity := env.maxCapacity
  , policies :=
      [ { metricType := "ECSServiceAverageCPUUtilization"
        , targetValue := 70
        , scaleInCooldownSeconds := 300
        , scaleOutCooldownSeconds := 300 }
      , { metricType := "ECSServiceAverageMemoryUtilization"
        , targetValue := 80
        , scaleInCooldownSeconds := 300
        , scaleOutCooldownSeconds := 300 } ] }

/-- Scaling configuration of EcsServiceCfnStack: CfnScalableTarget with
the environment bounds, a CPU CfnScalingPolicy (target 70, cooldowns
300 s) and a memory CfnScalingPolicy (target 80, cooldowns 300 s). -/
def ecsServiceCfnStackScaling (env : EnvironmentConfig) : ScalingModel :=
  { minCapacity := env.minCapacity
  , maxCapacity := env.maxCapacity
  , policies :=
      [ { metricType := "ECSServiceAverageCPUUtilization"
        , targetValue := 70
        , scaleInCooldownSeconds := 300
        , scaleOutCooldownSeconds := 300 }
      , { metricType := "ECSServiceAverageMemoryUtilization"
        , targetValue := 80
        , scaleInCooldownSeconds := 300
        , scaleOutCooldownSeconds := 300 } ] }

/-- Observable slice of one SimpleEcsServiceStack
(lib/simple-ecs-service-stack.ts): merged container environment, the
service desired count, and the scalable target, optional because that
stack creates none. -/
structure SimpleStackModel where
  containerEnvironment : List (String × String)
  desiredCount : Nat
  scalableTarget : Option ScalingModel
deriving DecidableEq, Repr

/-- Embeds construction of one SimpleEcsServiceStack
(lib/simple-ecs-service-stack.ts): the same container environment object
literal as the other stacks, a FargateService with desiredCount fixed to
the literal 1, and no autoScaleTaskCount call at all, so no scalable
target and no scaling policies exist in this stack. -/
def mkSimpleEcsServiceStack (env : EnvironmentConfig) (rc : RegionConfig) :
    SimpleStackModel :=
  { containerEnvironment := mergedContainerEnvironment env rc
  , desiredCount := 1
  , scalableTarget := none }

/-- Embeds construction of one EcsServiceStack (lib/ecs-service-stack.ts)
for a given stack id, environment and region. -/
def mkEcsServiceStack (stackId : String) (env : EnvironmentConfig)
    (rc : RegionConfig) : StackModel :=
  { stackId := stackId
  , flavor := "high-level"
  , region := rc.region
  , containerEnvironment := mergedContainerEnvironment env rc
  , desiredCount := env.desiredCount
  , scaling := ecsServiceStackScaling env }

/-- Embeds construction of one EcsServiceCfnStack
(lib/ecs-service-cfn-stack.ts) for a given stack id, environment and
region. -/
def mkEcsServiceCfnStack (stackId : String) (env : EnvironmentConfig)
    (rc : RegionConfig) : StackModel :=
  { stackId := stackId
  , flavor := "cfn"
  , region := rc.region
  , containerEnvironment := cfnContainerEnvironment env rc
  , desiredCount := env.desiredCount
  , scaling := ecsServiceCfnStackScaling env }

/-- Models the JS expression `value || dflt` on an optional string
context value: an absent value and the empty string (both falsy) yield
the default. -/
def orDefault (ctx : Option String) (dflt : String) : String :=
  match ctx with
  | none => dflt
  | some s => if s = "" then dflt else s

/-- Embeds `app.node.tryGetContext(environment) || dev` of
bin/ecs-service-app.ts. -/
def resolveEnvironmentName (ctx : Option String) : String :=
  orDefault ctx "dev"

/-- Embeds `app.node.tryGetContext(stackType) || high-level` of
bin/ecs-service-app.ts. -/
def resolveStackTypeName (ctx : Option String) : String :=
  orDefault ctx "high-level"

/-- Errors thrown by bin/ecs-service-app.ts: the environment-not-found
error and the unsupported-stack-type error, each carrying the offending
value. -/
inductive AppError where
  | configurationNotFound (name : String)
  | unsupportedMode (mode : String)
deriving DecidableEq, Repr

/-- Embeds the whole of bin/ecs-service-app.ts as a trace: the list of
stacks constructed before the program ends, and the error it throws, if
any. The environment lookup is checked first, then the stack type; only
then does the per-region forEach run, building one stack per region with
id appName-environment-region plus a -cfn suffix in cfn mode. -/
def runApp (envCtx stackCtx : Option String) : List StackModel × Option AppError :=
  let environmentName := resolveEnvironmentName envCtx
  let stackType := resolveStackTypeName stackCtx
  match envLookup environmentName with
  | none => ([], some (AppError.configurationNotFound environmentName))
  | some environmentConfig =>
      if stackType = "high-level" ∨ stackType = "cfn" then
        ( environmentConfig.regions.map (fun q =>
            let stackSuffix := if stackType = "cfn" then "-cfn" else ""
            let stackId := environmentConfig.appName ++ "-" ++
              environmentConfig.environment ++ "-" ++ q.2.region ++ stackSuffix
            if stackType = "cfn" then
              mkEcsServiceCfnStack stackId environmentConfig q.2
            else
              mkEcsServiceStack stackId environmentConfig q.2)
        , none )
      else
        ([], some (AppError.unsupportedMode stackType))

/-- Outcomes of scripts/deploy.sh: the three validation failures (each
exiting 1 before any tool invocation), the unknown-action failure, and a
hand-off to the underlying cdk tool with the chosen action, environment
and stackType context flag. -/
inductive DeployOutcome where
  | usageError
  | invalidEnvironment
  | invalidAction
  | invalidStackType
  | invoke (action : String) (environment : String) (cfnFlag : Bool)
deriving DecidableEq, Repr

/-- Embeds the argument handling of scripts/deploy.sh. A missing
positional argument is the empty string; ACTION and STACK_TYPE use the
bash default expansions deploy and high-level. The checks run in script
order: empty environment, environment not in dev/qa/prod, stack type not
in high-level/cfn, then the case dispatch over the four actions. -/
def deployScript (environmentArg actionArg stackTypeArg : String) : DeployOutcome :=
  let action := if actionArg = "" then "deploy" else actionArg
  let stackType := if stackTypeArg = "" then "high-level" else stackTypeArg
  if environmentArg = "" then
    DeployOutcome.usageError
  else if ¬ (environmentArg = "dev" ∨ environmentArg = "qa" ∨ environmentArg = "prod") then
    DeployOutcome.invalidEnvironment
  else if ¬ (stackType = "high-level" ∨ stackType = "cfn") then
    DeployOutcome.invalidStackType
  else if action = "deploy" ∨ action = "diff" ∨ action = "destroy" ∨ action = "synth" then
    DeployOutcome.invoke action environmentArg (stackType = "cfn")
  else
    DeployOutcome.invalidAction

/-- Relates an error thrown by runApp to its origin: each error can only
come from a context value that was present (non-absent, non-empty) and
unrecognized. -/
def errorExplained (envCtx stackCtx : Option String) : AppError → Prop
  | AppError.configurationNotFound n =>
      envCtx = some n ∧ n ≠ "" ∧ envLookup n = none
  | AppError.unsupportedMode m =>
      stackCtx = some m ∧ m ≠ "" ∧ m ≠ "high-level" ∧ m ≠ "cfn"

/-- Dev configuration with a hostile custom mapping that reuses the
system key ENVIRONMENT, exercising the merge on a custom mapping that
collides with a system key. -/
def devConfigWithSystemKeyOverride : EnvironmentConfig :=
  { devConfig with containerEnvironmentVariables := [("ENVIRONMENT", "attacker-value")] }

/-- Helper: a successful envLookup yields the value of one of the table
entries, so any property decided over the whole table transfers to it. -/
theorem envLookup_elim {P : EnvironmentConfig → Prop}
    (hall : ∀ p ∈ environments, P p.2) {name : String} {env : EnvironmentConfig}
    (h : envLookup name = some env) : P env := by
  unfold envLookup at h
  obtain ⟨pr, hfind, hsnd⟩ := Option.map_eq_some'.mp h
  exact hsnd ▸ hall pr (List.mem_of_find?_eq_some hfind)

/-- C5: for every environment name that resolves in the Environment
Table, the resolved configuration satisfies
minCapacity ≤ desiredCount ≤ maxCapacity. -/
theorem resolvedCapacity_ordered (name : String) (env : EnvironmentConfig)
    (h : envLookup name = some env) :
    env.minCapacity ≤ env.desiredCount ∧ env.desiredCount ≤ env.maxCapacity :=
  envLookup_elim (P := fun e => e.minCapacity ≤ e.desiredCount ∧ e.desiredCount ≤ e.maxCapacity)
    (by decide) h

/-- Witness for C5 at the qa environment. -/
theorem resolvedCapacity_ordered_witness :
    envLookup "qa" = some qaConfig ∧
      (qaConfig.minCapacity ≤ qaConfig.desiredCount ∧
        qaConfig.desiredCount ≤ qaConfig.maxCapacity) :=
  ⟨by decide, resolvedCapacity_ordered "qa" qaConfig (by decide)⟩

/-- C6: in every region entry of every Environment Table configuration,
the region encoded as the fourth colon-separated component of the
certificateArn equals the entry region field. -/
theorem certificateRegion_matches (name : String) (env : EnvironmentConfig)
    (h : envLookup name = some env) (r : String) (rc : RegionConfig)
    (hr : (r, rc) ∈ env.regions) :
    arnRegion rc.certificateArn = rc.region := by
  have hall := envLookup_elim
    (P := fun e => ∀ q ∈ e.regions, arnRegion q.2.certificateArn = q.2.region)
    (by decide) h
  exact hall (r, rc) hr

/-- Witness for C6 at the qa us-west-2 region entry. -/
theorem certificateRegion_matches_witness :
    envLookup "qa" = some qaConfig ∧
      ("us-west-2", qaUsWest2) ∈ qaConfig.regions ∧
      arnRegion qaUsWest2.certificateArn = qaUsWest2.region :=
  ⟨by decide, by decide,
    certificateRegion_matches "qa" qaConfig (by decide) "us-west-2" qaUsWest2 (by decide)⟩

/-- C1 counterexample: the object spread in the container definition puts
the custom mapping last, so a custom mapping containing the system key
ENVIRONMENT overrides the system value. At the dev environment and its
us-east-1 region with custom mapping \x7bENVIRONMENT: attacker-value\x7d,
the merged mapping binds ENVIRONMENT to attacker-value, not to the
environment name dev. -/
theorem mergedEnvironment_system_key_overridden :
    devConfigWithSystemKeyOverride.environment = "dev" ∧
      lookupVal (mergedContainerEnvironment devConfigWithSystemKeyOverride devUsEast1)
          "ENVIRONMENT" = some "attacker-value" ∧
      lookupVal (mergedContainerEnvironment devConfigWithSystemKeyOverride devUsEast1)
          "ENVIRONMENT" ≠ some devConfigWithSystemKeyOverride.environment := by
  decide

/-- C1 amended: for every environment in the Environment Table and every
region of it, the merged container environment-variable mapping is
exactly the two system keys ENVIRONMENT (bound to the environment name)
and REGION (bound to the region name) followed by all entries of the
custom mapping; the system values survive because no custom mapping in
the table uses a system key, not because the merge protects them. -/
theorem mergedEnvironment_table_exact (name : String) (env : EnvironmentConfig)
    (h : envLookup name = some env) (r : String) (rc : RegionConfig)
    (hr : (r, rc) ∈ env.regions) :
    mergedContainerEnvironment env rc =
        ("ENVIRONMENT", env.environment) :: ("REGION", rc.region) ::
          env.containerEnvironmentVariables ∧
      lookupVal (mergedContainerEnvironment env rc) "ENVIRONMENT" = some env.environment ∧
      lookupVal (mergedContainerEnvironment env rc) "REGION" = some rc.region := by
  have hall := envLookup_elim
    (P := fun e => ∀ q ∈ e.regions,
      mergedContainerEnvironment e q.2 =
          ("ENVIRONMENT", e.environment) :: ("REGION", q.2.region) ::
            e.containerEnvironmentVariables ∧
        lookupVal (mergedContainerEnvironment e q.2) "ENVIRONMENT" = some e.environment ∧
        lookupVal (mergedContainerEnvironment e q.2) "REGION" = some q.2.region)
    (by decide) h
  exact hall (r, rc) hr

/-- Witness for the amended C1 at the qa us-east-1 region entry. -/
theorem mergedEnvironment_table_exact_witness :
    envLookup "qa" = some qaConfig ∧
      ("us-east-1", qaUsEast1) ∈ qaConfig.regions ∧
      (mergedContainerEnvironment qaConfig qaUsEast1 =
          ("ENVIRONMENT", qaConfig.environment) :: ("REGION", qaUsEast1.region) ::
            qaConfig.containerEnvironmentVariables ∧
        lookupVal (mergedContainerEnvironment qaConfig qaUsEast1) "ENVIRONMENT" =
          some qaConfig.environment ∧
        lookupVal (mergedContainerEnvironment qaConfig qaUsEast1) "REGION" =
          some qaUsEast1.region) :=
  ⟨by decide, by decide,
    mergedEnvironment_table_exact "qa" qaConfig (by decide) "us-east-1" qaUsEast1 (by decide)⟩

/-- C2 counterexample: the empty string is not a key of the Environment
Table, yet with a recognized mode the app throws nothing: the JS
expression tryGetContext(environment) || dev treats the empty string as
falsy, silently resolves dev and constructs its stacks. -/
theorem emptyEnvironmentName_not_rejected :
    envLookup "" = none ∧
      (runApp (some "") (some "high-level")).2 = none ∧
      (runApp (some "") (some "high-level")).1 ≠ [] := by
  decide

/-- C2 amended: for every nonempty environment name that is not a key of
the Environment Table and either recognized stack mode, the app throws
the environment-not-found error carrying that name and constructs no
stack. -/
theorem unknownEnvironment_fails_closed (name mode : String) (hne : name ≠ "")
    (hnk : envLookup name = none) (_hmode : mode = "high-level" ∨ mode = "cfn") :
    runApp (some name) (some mode) = ([], some (AppError.configurationNotFound name)) := by
  unfold runApp resolveEnvironmentName orDefault
  simp [hne, hnk]

/-- Witness for the amended C2 at the environment name nonexistent and
the mode high-level. -/
theorem unknownEnvironment_fails_closed_witness :
    ("nonexistent" : String) ≠ "" ∧ envLookup "nonexistent" = none ∧
      runApp (some "nonexistent") (some "high-level") =
        ([], some (AppError.configurationNotFound "nonexistent")) :=
  ⟨by decide, by decide,
    unknownEnvironment_fails_closed "nonexistent" "high-level" (by decide) (by decide)
      (Or.inl rfl)⟩

/-- C3 counterexample: the empty string is outside the two recognized
stack-mode literals, yet with the recognized environment dev the app
throws nothing: tryGetContext(stackType) || high-level treats the empty
string as falsy and silently uses the high-level default. -/
theorem emptyStackType_not_rejected :
    ¬ (("" : String) = "high-level" ∨ ("" : String) = "cfn") ∧
      (runApp (some "dev") (some "")).2 = none := by
  decide

/-- C3 amended: for every environment name present in the Environment
Table and every nonempty stack-mode string outside the two recognized
literals, the app throws the unsupported-stack-type error carrying that
mode and constructs no stack; with either recognized literal it throws
nothing. -/
theorem unsupportedStackType_fails (name : String) (env : EnvironmentConfig)
    (h : envLookup name = some env) (mode : String) (hne : mode ≠ "")
    (h1 : mode ≠ "high-level") (h2 : mode ≠ "cfn") :
    runApp (some name) (some mode) = ([], some (AppError.unsupportedMode mode)) ∧
      (runApp (some name) (some "high-level")).2 = none ∧
      (runApp (some name) (some "cfn")).2 = none := by
  have hname : name ≠ "" := by
    intro he
    rw [he, show envLookup "" = none from by decide] at h
    exact Option.noConfusion h
  unfold runApp resolveEnvironmentName resolveStackTypeName orDefault
  simp [hname, hne, h, h1, h2]

/-- Witness for the amended C3 at the environment dev and the mode
bogus-mode. -/
theorem unsupportedStackType_fails_witness :
    envLookup "dev" = some devConfig ∧ ("bogus-mode" : String) ≠ "" ∧
      (runApp (some "dev") (some "bogus-mode") =
          ([], some (AppError.unsupportedMode "bogus-mode")) ∧
        (runApp (some "dev") (some "high-level")).2 = none ∧
        (runApp (some "dev") (some "cfn")).2 = none) :=
  ⟨by decide, by decide,
    unsupportedStackType_fails "dev" devConfig (by decide) "bogus-mode" (by decide)
      (by decide) (by decide)⟩

/-- C4: whenever the app throws either resolution error, the trace of
constructed stacks is empty: both checks precede the per-region forEach,
so failure is all-or-nothing. -/
theorem appErrors_precede_construction (envCtx stackCtx : Option String)
    (h : (runApp envCtx stackCtx).2.isSome) : (runApp envCtx stackCtx).1 = [] := by
  simp only [runApp] at h ⊢
  cases he : envLookup (resolveEnvironmentName envCtx) with
  | none => simp [he]
  | some cfg =>
      by_cases hs : resolveStackTypeName stackCtx = "high-level" ∨
          resolveStackTypeName stackCtx = "cfn"
      · simp [he, hs] at h
      · simp [hs]

/-- Witness for C4 at an unknown environment name. -/
theorem appErrors_precede_construction_witness :
    (runApp (some "nonexistent") (some "cfn")).2.isSome = true ∧
      (runApp (some "nonexistent") (some "cfn")).1 = [] :=
  ⟨by decide, appErrors_precede_construction (some "nonexistent") (some "cfn") (by decide)⟩

/-- C7: resolving qa yields exactly the two region entries us-east-1 and
us-west-2 with their respective certificate and hosted-zone identifiers,
scaling bounds 2 to 10 and desired count 3, and the app constructs one
stack per region entry. -/
theorem qaResolution_two_regions :
    envLookup "qa" = some qaConfig ∧
      qaConfig.regions = [("us-east-1", qaUsEast1), ("us-west-2", qaUsWest2)] ∧
      qaUsEast1.certificateArn =
        "arn:aws:acm:us-east-1:123456789012:certificate/qa-xxxxxxxxx" ∧
      qaUsEast1.hostedZoneId = "Z1234567890123" ∧
      qaUsWest2.certificateArn =
        "arn:aws:acm:us-west-2:123456789012:certificate/qa-xxxxxxxxx" ∧
      qaUsWest2.hostedZoneId = "Z1234567890123" ∧
      qaConfig.minCapacity = 2 ∧ qaConfig.maxCapacity = 10 ∧ qaConfig.desiredCount = 3 ∧
      (runApp (some "qa") (some "high-level")).1.length = qaConfig.regions.length ∧
      (runApp (some "qa") (some "high-level")).1.map StackModel.region =
        ["us-east-1", "us-west-2"] ∧
      (runApp (some "qa") (some "cfn")).1.length = qaConfig.regions.length := by
  decide

/-- C8 counterexample: SimpleEcsServiceStack has auto-scaling removed: at
the dev environment and its us-east-1 region it creates no scalable
target and no scaling policy and fixes the service desired count to 1,
so not every stack flavor configures the two target-tracking scaling
policies. -/
theorem simpleStack_no_scaling_policies :
    (mkSimpleEcsServiceStack devConfig devUsEast1).scalableTarget = none ∧
      (mkSimpleEcsServiceStack devConfig devUsEast1).desiredCount = 1 := by
  decide

/-- C8 amended: for every environment configuration, region configuration
and stack id, each of the two stack flavors the app instantiates carries
exactly two target-tracking scaling policies, CPU utilization at target
70 and memory utilization at target 80, each with 300-second scale-in
and scale-out cooldowns, on a scalable target bounded by the environment
minCapacity and maxCapacity, while SimpleEcsServiceStack creates no
scalable target and runs a fixed desired count of 1. -/
theorem scalingPolicies_app_flavors (stackId : String) (env : EnvironmentConfig)
    (rc : RegionConfig) :
    (mkEcsServiceStack stackId env rc).scaling =
        { minCapacity := env.minCapacity
        , maxCapacity := env.maxCapacity
        , policies :=
            [ { metricType := "ECSServiceAverageCPUUtilization"
              , targetValue := 70
              , scaleInCooldownSeconds := 300
              , scaleOutCooldownSeconds := 300 }
            , { metricType := "ECSServiceAverageMemoryUtilization"
              , targetValue := 80
              , scaleInCooldownSeconds := 300
              , scaleOutCooldownSeconds := 300 } ] } ∧
      (mkEcsServiceCfnStack stackId env rc).scaling =
        (mkEcsServiceStack stackId env rc).scaling ∧
      (mkEcsServiceStack stackId env rc).scaling.policies.length = 2 ∧
      (mkSimpleEcsServiceStack env rc).scalableTarget = none ∧
      (mkSimpleEcsServiceStack env rc).desiredCount = 1 :=
  ⟨rfl, rfl, rfl, rfl, rfl⟩

/-- C9 counterexample: the deploy script rejects the environment local
with its environment-validation error before invoking the underlying
tool, for the deploy operation and the others alike. -/
theorem deployScript_rejects_local :
    deployScript "local" "deploy" "" = DeployOutcome.invalidEnvironment ∧
      deployScript "local" "deploy" "high-level" = DeployOutcome.invalidEnvironment ∧
      deployScript "local" "diff" "high-level" = DeployOutcome.invalidEnvironment ∧
      deployScript "local" "destroy" "cfn" = DeployOutcome.invalidEnvironment ∧
      deployScript "local" "synth" "high-level" = DeployOutcome.invalidEnvironment := by
  decide

/-- C9 amended: for every operation among deploy, diff, destroy and synth
and every environment among dev, qa and prod, the script hands off to the
underlying tool with that operation and environment under both stack
types, while the environment local is rejected with exit 1 before any
tool invocation. -/
theorem deployScript_accepts_valid (environment action : String)
    (henv : environment = "dev" ∨ environment = "qa" ∨ environment = "prod")
    (hact : action = "deploy" ∨ action = "diff" ∨ action = "destroy" ∨ action = "synth") :
    deployScript environment action "high-level" =
        DeployOutcome.invoke action environment false ∧
      deployScript environment action "cfn" = DeployOutcome.invoke action environment true ∧
      deployScript environment action "" = DeployOutcome.invoke action environment false ∧
      deployScript "local" action "high-level" = DeployOutcome.invalidEnvironment := by
  rcases henv with h | h | h <;> rcases hact with h2 | h2 | h2 | h2 <;>
    subst h <;> subst h2 <;> decide

/-- Witness for the amended C9 at environment qa and operation destroy. -/
theorem deployScript_accepts_valid_witness :
    (("qa" : String) = "dev" ∨ ("qa" : String) = "qa" ∨ ("qa" : String) = "prod") ∧
      (deployScript "qa" "destroy" "high-level" = DeployOutcome.invoke "destroy" "qa" false ∧
        deployScript "qa" "destroy" "cfn" = DeployOutcome.invoke "destroy" "qa" true ∧
        deployScript "qa" "destroy" "" = DeployOutcome.invoke "destroy" "qa" false ∧
        deployScript "local" "destroy" "high-level" = DeployOutcome.invalidEnvironment) :=
  ⟨Or.inr (Or.inl rfl),
    deployScript_accepts_valid "qa" "destroy" (Or.inr (Or.inl rfl))
      (Or.inr (Or.inr (Or.inl rfl)))⟩

/-- C10: an absent environment context silently resolves to dev and an
absent stackType context silently resolves to high-level, with the whole
run identical to an explicit dev high-level run and free of errors; any
error the app throws originates from a context value that was present
and unrecognized. -/
theorem contextDefaults_and_error_origin :
    resolveEnvironmentName none = "dev" ∧
      resolveStackTypeName none = "high-level" ∧
      runApp none none = runApp (some "dev") (some "high-level") ∧
      (runApp none none).2 = none ∧
      (runApp (some "dev") none).2 = none ∧
      (runApp none (some "cfn")).2 = none ∧
      ∀ envCtx stackCtx err, (runApp envCtx stackCtx).2 = some err →
        errorExplained envCtx stackCtx err := by
  refine ⟨rfl, rfl, by decide, by decide, by decide, by decide, ?_⟩
  intro envCtx stackCtx err h
  simp only [runApp] at h
  cases he : envLookup (resolveEnvironmentName envCtx) with
  | none =>
      rw [he] at h
      simp only [Option.some.injEq] at h
      subst h
      cases envCtx with
      | none => exact absurd he (by decide)
      | some s =>
          by_cases hs : s = ""
          · subst hs
            exact absurd he (by decide)
          · refine ⟨?_, ?_, ?_⟩
            · show some s = some (resolveEnvironmentName (some s))
              simp [resolveEnvironmentName, orDefault, hs]
            · show resolveEnvironmentName (some s) ≠ ""
              simp [resolveEnvironmentName, orDefault, hs]
            · exact he
  | some cfg =>
      rw [he] at h
      by_cases hm : resolveStackTypeName stackCtx = "high-level" ∨
          resolveStackTypeName stackCtx = "cfn"
      · simp [hm] at h
      · simp only [if_neg hm, Option.some.injEq] at h
        subst h
        cases stackCtx with
        | none => exact absurd (Or.inl rfl) hm
        | some s =>
            by_cases hs : s = ""
            · subst hs
              exact absurd (Or.inl rfl) hm
            · have hres : resolveStackTypeName (some s) = s := by
                simp [resolveStackTypeName, orDefault, hs]
              rw [hres] at hm ⊢
              push_neg at hm
              exact ⟨rfl, hs, hm.1, hm.2⟩

/-- Witness for C10 at a present but unrecognized environment value. -/
theorem contextDefaults_and_error_origin_witness :
    (runApp (some "nonexistent") none).2 =
        some (AppError.configurationNotFound "nonexistent") ∧
      errorExplained (some "nonexistent") none
        (AppError.configurationNotFound "nonexistent") :=
  ⟨by decide,
    contextDefaults_and_error_origin.2.2.2.2.2.2 (some "nonexistent") none
      (AppError.configurationNotFound "nonexistent") (by decide)⟩
